import Mathlib

/-!
Shallow embedding of the `sysly` crate (src/lib.rs), an RFC 5424 syslog
client: facility/severity enumerations, priority computation, wire-line
formatting, transport abstraction and the builder-style `Syslog` logger.

OS effects (UDP bind, unix-socket connect, datagram send, wall clock) are
modelled as explicit oracle parameters; a timestamp `Tm` is opaque except
for its RFC 3339 rendering, matching the only use the source makes of it.
-/

/-- static NIL: &'static str = "-" -/
def NIL : String := "-"

/-- Syslog facilities with their discriminants, as declared in the source. -/
inductive Facility where
  | KERN | USER | MAIL | DAEMON | AUTH | SYSLOG | LINEPTR | NEWS
  | UUCP | CLOCK | AUTHPRIV | FTP
  | LOCAL0 | LOCAL1 | LOCAL2 | LOCAL3 | LOCAL4 | LOCAL5 | LOCAL6 | LOCAL7
  deriving DecidableEq, Repr

/-- The numeric discriminant of each `Facility`, copied from the source
(`KERN = 0`, `USER = 1 << 3`, ..., `LOCAL7 = 23 << 3`). -/
def Facility.code : Facility → Nat
  | .KERN     => 0
  | .USER     => 1 <<< 3
  | .MAIL     => 2 <<< 3
  | .DAEMON   => 3 <<< 3
  | .AUTH     => 4 <<< 3
  | .SYSLOG   => 5 <<< 3
  | .LINEPTR  => 6 <<< 3
  | .NEWS     => 7 <<< 3
  | .UUCP     => 8 <<< 3
  | .CLOCK    => 9 <<< 3
  | .AUTHPRIV => 10 <<< 3
  | .FTP      => 11 <<< 3
  | .LOCAL0   => 16 <<< 3
  | .LOCAL1   => 17 <<< 3
  | .LOCAL2   => 18 <<< 3
  | .LOCAL3   => 19 <<< 3
  | .LOCAL4   => 20 <<< 3
  | .LOCAL5   => 21 <<< 3
  | .LOCAL6   => 22 <<< 3
  | .LOCAL7   => 23 <<< 3

/-- Syslog severities, in declaration order (no explicit discriminants in
the source, so Rust assigns 0,1,2,...,7). -/
inductive Severity where
  | EMERGENCY | ALERT | CRITICAL | ERROR | WARNING | NOTICE | INFO | DEBUG
  deriving DecidableEq, Repr

/-- The numeric discriminant of each `Severity` (implicit 0..7). -/
def Severity.code : Severity → Nat
  | .EMERGENCY => 0
  | .ALERT     => 1
  | .CRITICAL  => 2
  | .ERROR     => 3
  | .WARNING   => 4
  | .NOTICE    => 5
  | .INFO      => 6
  | .DEBUG     => 7

/-- `fn priority(facility, severity) -> u8 { facility as u8 | severity as u8 }`.
The `as u8` casts are `% 256`; the bitwise or of two bytes is again a byte. -/
def Syslog.priority (facility : Facility) (severity : Severity) : Nat :=
  Nat.lor (facility.code % 256) (severity.code % 256)

/-- A timestamp, opaque except for its RFC 3339 rendering (the only use the
source makes of a `time::Tm` is calling `.rfc3339()` on it). -/
structure Tm where
  rfc3339 : String
  deriving DecidableEq

/-- `fn line(facility, severity, timestamp, host, app, pid, msgid, msg)`:
the wire line built by the source format string: priority in angle brackets
rendered in decimal, the literal version digit 1, then the space-separated
timestamp, host, app, pid, msgid and message, with each absent optional
field replaced by NIL (the source writes `x.unwrap_or(NIL)`). -/
def Syslog.line (facility : Facility) (severity : Severity) (timestamp : Tm)
    (host : Option String) (app : Option String) (pid : Option String)
    (msgid : Option String) (msg : String) : String :=
  "<" ++ Nat.repr (Syslog.priority facility severity) ++ ">1 "
    ++ timestamp.rfc3339
    ++ " " ++ host.getD NIL
    ++ " " ++ app.getD NIL
    ++ " " ++ pid.getD NIL
    ++ " " ++ msgid.getD NIL
    ++ " " ++ msg

/-- An I/O error (`std::io::Error`), opaque except for its display text. -/
structure IoError where
  msg : String
  deriving DecidableEq

/-- `pub type Result = io::Result<()>` -/
abbrev Result := Except IoError Unit

/-- A socket address, opaque: the source only forwards it to `send_to`. -/
structure SocketAddr where
  raw : String
  deriving DecidableEq

/-- A bound UDP socket, modelled by its OS send oracle:
`send_to(buf, addr) -> io::Result<usize>` returns the number of bytes the
OS reports as transmitted, or an I/O error. -/
structure UdpSocket where
  sendTo : String → SocketAddr → Except IoError Nat

/-- A connected unix-domain stream, modelled by its OS write oracle:
`write_all(buf) -> io::Result<()>`. -/
structure UnixStream where
  writeAll : String → Result

/-- `impl Transport for (UdpSocket, SocketAddr)`: `send` calls
`send_to(line.as_bytes(), &self.1)` and discards the byte count via
`.map(|_| ())`. -/
def udpSend (self : UdpSocket × SocketAddr) (ln : String) : Result :=
  (self.1.sendTo ln self.2).map (fun _ => ())

/-- `impl Transport for UnixStream`: `send` is `write_all(line.as_bytes())`. -/
def unixSend (self : UnixStream) (ln : String) : Result :=
  self.writeAll ln

/-- The `Transport` trait object (`Box<Transport>`): one operation,
send a line, yielding `Result`. -/
structure Transport where
  send : String → Result

/-- Boxing the UDP pair as a trait object. -/
def Transport.ofUdp (socket : UdpSocket) (host : SocketAddr) : Transport :=
  ⟨udpSend (socket, host)⟩

/-- Boxing the unix stream as a trait object. -/
def Transport.ofUnix (stream : UnixStream) : Transport :=
  ⟨unixSend stream⟩

/-- `pub struct Syslog`: facility, the four optional metadata fields, and
the owned boxed transport. -/
structure Syslog where
  facility : Facility
  host : Option String
  app : Option String
  pid : Option String
  msgid : Option String
  transport : Transport

/-- `pub fn facility(self, facility: Facility) -> Syslog` (renamed: the
field projection already takes the source name). -/
def Syslog.withFacility (self : Syslog) (facility : Facility) : Syslog :=
  { facility := facility, host := self.host, app := self.app,
    pid := self.pid, msgid := self.msgid, transport := self.transport }

/-- `pub fn host(self, local: &str) -> Syslog` (renamed as above; the
parameter `local` is a Lean keyword, hence `localAddr`). -/
def Syslog.withHost (self : Syslog) (localAddr : String) : Syslog :=
  { facility := self.facility, host := some localAddr, app := self.app,
    pid := self.pid, msgid := self.msgid, transport := self.transport }

/-- `pub fn app(self, app: &str) -> Syslog` (renamed as above). -/
def Syslog.withApp (self : Syslog) (app : String) : Syslog :=
  { facility := self.facility, host := self.host, app := some app,
    pid := self.pid, msgid := self.msgid, transport := self.transport }

/-- `pub fn pid(self, pid: &str) -> Syslog` (renamed as above). -/
def Syslog.withPid (self : Syslog) (pid : String) : Syslog :=
  { facility := self.facility, host := self.host, app := self.app,
    pid := some pid, msgid := self.msgid, transport := self.transport }

/-- `pub fn msgid(self, id: &str) -> Syslog` (renamed as above). -/
def Syslog.withMsgid (self : Syslog) (id : String) : Syslog :=
  { facility := self.facility, host := self.host, app := self.app,
    pid := self.pid, msgid := some id, transport := self.transport }

/-- `fn log(&mut self, severity, msg) -> Result`: formats the line from the
current configuration (the wall clock `time::now()` is the explicit `now`
parameter) and hands it to the owned transport. -/
def Syslog.log (self : Syslog) (severity : Severity) (now : Tm)
    (msg : String) : Result :=
  self.transport.send
    (Syslog.line self.facility severity now self.host self.app self.pid
      self.msgid msg)

/-- Outcome of a transport factory: either the process aborts (the source
writes `panic!` with the given message) or a logger is built. The type has
no error-returning constructor, mirroring the factories' infallible
signatures. -/
inductive FactoryOutcome where
  | abort (reason : String)
  | built (logger : Syslog)

/-- `pub fn udp(host: SocketAddr) -> Syslog`: the OS bind call
`UdpSocket::bind("0.0.0.0:0")` is the explicit oracle argument; on bind
failure the source aborts with the shown message, otherwise it builds a
logger with the USER facility, no metadata, and the boxed (socket, host)
pair as transport. -/
def Syslog.udp (bindResult : Except IoError UdpSocket)
    (host : SocketAddr) : FactoryOutcome :=
  match bindResult with
  | .error e => .abort ("error binding to local addr " ++ e.msg)
  | .ok socket =>
    .built { facility := Facility.USER, host := none, app := none,
             pid := none, msgid := none,
             transport := Transport.ofUdp socket host }

/-- `pub fn unix<P>(path: P) -> Syslog`: the OS connect call
`UnixStream::connect(path)` is the explicit oracle argument; on connect
failure the source aborts (discarding the error), otherwise it builds a
logger with the USER facility, no metadata, and the boxed stream. -/
def Syslog.unix (connectResult : Except IoError UnixStream) : FactoryOutcome :=
  match connectResult with
  | .error _ => .abort "failed to connect to socket"
  | .ok stream =>
    .built { facility := Facility.USER, host := none, app := none,
             pid := none, msgid := none,
             transport := Transport.ofUnix stream }

/-- Normal form of the wire line: the space-join of the seven header and
body fields, with absent optional fields rendered as NIL. -/
theorem Syslog.line_eq_intercalate (f : Facility) (s : Severity) (ts : Tm)
    (host app pid msgid : Option String) (msg : String) :
    Syslog.line f s ts host app pid msgid msg =
      String.intercalate " "
        ["<" ++ Nat.repr (Syslog.priority f s) ++ ">1", ts.rfc3339,
         host.getD NIL, app.getD NIL, pid.getD NIL, msgid.getD NIL, msg] := by
  apply String.ext
  simp [Syslog.line, String.data_append, String.intercalate,
    String.intercalate.go]

/-- C1: for every (facility, severity) pair the computed priority is the
bitwise or of the two numeric codes, and (LOCAL7, EMERGENCY) yields 184. -/
theorem priority_is_or :
    (∀ (f : Facility) (s : Severity),
        Syslog.priority f s = Nat.lor (Facility.code f) (Severity.code s)) ∧
      Syslog.priority Facility.LOCAL7 Severity.EMERGENCY = 184 := by
  refine ⟨fun f s => ?_, by decide⟩
  cases f <;> cases s <;> rfl

/-- C2: with facility LOCAL0, severity INFO, no host, app "sysly", no pid,
no msgid and message "yo", the encoder yields exactly the header
prefix, the RFC 3339 timestamp, and the NIL-padded tail of the spec. -/
theorem line_full_example (ts : Tm) :
    Syslog.line Facility.LOCAL0 Severity.INFO ts none (some "sysly")
        none none "yo" =
      "<134>1 " ++ ts.rfc3339 ++ " - sysly - - yo" := by
  have h : Nat.repr (Syslog.priority Facility.LOCAL0 Severity.INFO) = "134" :=
    rfl
  apply String.ext
  simp [Syslog.line, h, NIL, String.data_append]

/-- C3: with host, app, pid and msgid all absent, the formatted line is the
space-join of exactly seven fields, and the four optional-field slots are
each exactly the NIL token. -/
theorem line_all_nil (f : Facility) (s : Severity) (ts : Tm) (msg : String) :
    Syslog.line f s ts none none none none msg =
      String.intercalate " "
        ["<" ++ Nat.repr (Syslog.priority f s) ++ ">1", ts.rfc3339,
         NIL, NIL, NIL, NIL, msg] :=
  Syslog.line_eq_intercalate f s ts none none none none msg

/-- C4: setting exactly one optional field replaces only that slot of the
all-NIL seven-field join; the other three optional slots stay NIL. -/
theorem line_single_field (f : Facility) (s : Severity) (ts : Tm)
    (v : String) (msg : String) :
    Syslog.line f s ts (some v) none none none msg =
        String.intercalate " "
          ["<" ++ Nat.repr (Syslog.priority f s) ++ ">1", ts.rfc3339,
           v, NIL, NIL, NIL, msg] ∧
      Syslog.line f s ts none (some v) none none msg =
        String.intercalate " "
          ["<" ++ Nat.repr (Syslog.priority f s) ++ ">1", ts.rfc3339,
           NIL, v, NIL, NIL, msg] ∧
      Syslog.line f s ts none none (some v) none msg =
        String.intercalate " "
          ["<" ++ Nat.repr (Syslog.priority f s) ++ ">1", ts.rfc3339,
           NIL, NIL, v, NIL, msg] ∧
      Syslog.line f s ts none none none (some v) msg =
        String.intercalate " "
          ["<" ++ Nat.repr (Syslog.priority f s) ++ ">1", ts.rfc3339,
           NIL, NIL, NIL, v, msg] :=
  ⟨Syslog.line_eq_intercalate f s ts (some v) none none none msg,
   Syslog.line_eq_intercalate f s ts none (some v) none none msg,
   Syslog.line_eq_intercalate f s ts none none (some v) none msg,
   Syslog.line_eq_intercalate f s ts none none none (some v) msg⟩

/-- C5: each configuration setter updates exactly its one metadata field;
the other four configuration fields and the transport value are those of
the receiver. -/
theorem setters_frame (l : Syslog) (fac : Facility) (v : String) :
    ((l.withFacility fac).facility = fac ∧
      (l.withFacility fac).host = l.host ∧
      (l.withFacility fac).app = l.app ∧
      (l.withFacility fac).pid = l.pid ∧
      (l.withFacility fac).msgid = l.msgid ∧
      (l.withFacility fac).transport = l.transport) ∧
    ((l.withHost v).facility = l.facility ∧
      (l.withHost v).host = some v ∧
      (l.withHost v).app = l.app ∧
      (l.withHost v).pid = l.pid ∧
      (l.withHost v).msgid = l.msgid ∧
      (l.withHost v).transport = l.transport) ∧
    ((l.withApp v).facility = l.facility ∧
      (l.withApp v).host = l.host ∧
      (l.withApp v).app = some v ∧
      (l.withApp v).pid = l.pid ∧
      (l.withApp v).msgid = l.msgid ∧
      (l.withApp v).transport = l.transport) ∧
    ((l.withPid v).facility = l.facility ∧
      (l.withPid v).host = l.host ∧
      (l.withPid v).app = l.app ∧
      (l.withPid v).pid = some v ∧
      (l.withPid v).msgid = l.msgid ∧
      (l.withPid v).transport = l.transport) ∧
    ((l.withMsgid v).facility = l.facility ∧
      (l.withMsgid v).host = l.host ∧
      (l.withMsgid v).app = l.app ∧
      (l.withMsgid v).pid = l.pid ∧
      (l.withMsgid v).msgid = some v ∧
      (l.withMsgid v).transport = l.transport) :=
  ⟨⟨rfl, rfl, rfl, rfl, rfl, rfl⟩, ⟨rfl, rfl, rfl, rfl, rfl, rfl⟩,
   ⟨rfl, rfl, rfl, rfl, rfl, rfl⟩, ⟨rfl, rfl, rfl, rfl, rfl, rfl⟩,
   ⟨rfl, rfl, rfl, rfl, rfl, rfl⟩⟩

/-- C6: an emission returns exactly what the transport's send returns on
the formatted line: errors and successes pass through unchanged, with no
retry or transformation. -/
theorem log_returns_send_result (l : Syslog) (sev : Severity) (now : Tm)
    (msg : String) (r : Result)
    (h : l.transport.send
      (Syslog.line l.facility sev now l.host l.app l.pid l.msgid msg) = r) :
    l.log sev now msg = r := by
  rw [← h]
  rfl

/-- Witness for C6: a logger over a transport that fails with the error
"boom" reports exactly that error from log. -/
theorem log_returns_send_result_witness :
    Syslog.log
        ⟨Facility.USER, none, none, none, none,
          ⟨fun _ => Except.error ⟨"boom"⟩⟩⟩
        Severity.INFO ⟨"1970-01-01T00:00:00Z"⟩ "yo" =
      Except.error ⟨"boom"⟩ :=
  log_returns_send_result _ _ _ _ _ rfl

/-- C7: both factories abort on OS failure and build a logger on OS
success; their outcome type has no error constructor, so no error value
can be returned to the caller. -/
theorem factories_abort_on_failure :
    (∀ (h : SocketAddr) (e : IoError),
        Syslog.udp (Except.error e) h =
          FactoryOutcome.abort ("error binding to local addr " ++ e.msg)) ∧
      (∀ (h : SocketAddr) (s : UdpSocket),
        Syslog.udp (Except.ok s) h =
          FactoryOutcome.built
            ⟨Facility.USER, none, none, none, none, Transport.ofUdp s h⟩) ∧
      (∀ e : IoError,
        Syslog.unix (Except.error e) =
          FactoryOutcome.abort "failed to connect to socket") ∧
      (∀ st : UnixStream,
        Syslog.unix (Except.ok st) =
          FactoryOutcome.built
            ⟨Facility.USER, none, none, none, none, Transport.ofUnix st⟩) :=
  ⟨fun _ _ => rfl, fun _ _ => rfl, fun _ => rfl, fun _ => rfl⟩

/-- C8: every facility code is a multiple of 8, the facility codes are the
listed shifted values in declaration order, and the severities map to
0 through 7 in declaration order. -/
theorem enum_codes :
    (∀ f : Facility, Facility.code f % 8 = 0) ∧
      [Facility.KERN, Facility.USER, Facility.MAIL, Facility.DAEMON,
        Facility.AUTH, Facility.SYSLOG, Facility.LINEPTR, Facility.NEWS,
        Facility.UUCP, Facility.CLOCK, Facility.AUTHPRIV, Facility.FTP,
        Facility.LOCAL0, Facility.LOCAL1, Facility.LOCAL2, Facility.LOCAL3,
        Facility.LOCAL4, Facility.LOCAL5, Facility.LOCAL6,
        Facility.LOCAL7].map Facility.code =
      [0, 1 <<< 3, 2 <<< 3, 3 <<< 3, 4 <<< 3, 5 <<< 3, 6 <<< 3, 7 <<< 3,
        8 <<< 3, 9 <<< 3, 10 <<< 3, 11 <<< 3, 16 <<< 3, 17 <<< 3, 18 <<< 3,
        19 <<< 3, 20 <<< 3, 21 <<< 3, 22 <<< 3, 23 <<< 3] ∧
      [Severity.EMERGENCY, Severity.ALERT, Severity.CRITICAL,
        Severity.ERROR, Severity.WARNING, Severity.NOTICE, Severity.INFO,
        Severity.DEBUG].map Severity.code =
      [0, 1, 2, 3, 4, 5, 6, 7] := by
  refine ⟨fun f => ?_, rfl, rfl⟩
  cases f <;> rfl

/-- C9: the encoder is deterministic: calls on equal arguments yield equal
(byte-identical) output strings. -/
theorem line_deterministic (f f2 : Facility) (s s2 : Severity)
    (ts ts2 : Tm) (host host2 app app2 pid pid2 msgid msgid2 : Option String)
    (msg msg2 : String)
    (hf : f = f2) (hs : s = s2) (ht : ts = ts2) (hh : host = host2)
    (ha : app = app2) (hp : pid = pid2) (hm : msgid = msgid2)
    (hg : msg = msg2) :
    Syslog.line f s ts host app pid msgid msg =
      Syslog.line f2 s2 ts2 host2 app2 pid2 msgid2 msg2 := by
  rw [hf, hs, ht, hh, ha, hp, hm, hg]

/-- Witness for C9: two calls of the encoder at one concrete argument list
agree. -/
theorem line_deterministic_witness :
    Syslog.line Facility.LOCAL0 Severity.INFO ⟨"1970-01-01T00:00:00Z"⟩
        none none none none "yo" =
      Syslog.line Facility.LOCAL0 Severity.INFO ⟨"1970-01-01T00:00:00Z"⟩
        none none none none "yo" :=
  line_deterministic _ _ _ _ _ _ _ _ _ _ _ _ _ _ _ _
    rfl rfl rfl rfl rfl rfl rfl rfl

/-- C10: the datagram transport reports success whenever the OS send_to
call succeeds, even when the reported byte count is smaller than the byte
length of the line: the count is discarded. -/
theorem udp_send_discards_count (socket : UdpSocket) (addr : SocketAddr)
    (ln : String) (n : Nat)
    (hsend : socket.sendTo ln addr = Except.ok n)
    (_hshort : n < ln.utf8ByteSize) :
    udpSend (socket, addr) ln = Except.ok () := by
  simp [udpSend, hsend, Except.map]

/-- Witness for C10: a socket whose OS call reports 0 of the 2 bytes of
"yo" transmitted still yields a success result. -/
theorem udp_send_discards_count_witness :
    (0 < ("yo" : String).utf8ByteSize) ∧
      udpSend (⟨fun _ _ => Except.ok 0⟩, ⟨"127.0.0.1:514"⟩) "yo" =
        Except.ok () :=
  ⟨by decide,
    udp_send_discards_count ⟨fun _ _ => Except.ok 0⟩ ⟨"127.0.0.1:514"⟩
      "yo" 0 rfl (by decide)⟩
